import Mathlib

/- Shallow embedding of the capacity derivation and memoization engine of the
token_price_analysis repository (src/database.py and
src/token_service_calculator.py).

Modelling conventions: Python floats are modelled as rationals and Python
ints as integers; `int(x)` truncates toward zero (`pyInt`); a Python
division `a / b` raises ZeroDivisionError when `b == 0`, which the
embedding makes explicit through `pyDiv` whenever the denominator is data
(a division by a nonzero literal such as `/ 10000` cannot raise and is
written with plain division).  The SQLite tables become finite-map-like
fields of a `TokenServiceDatabase` state record, and methods that write
become state-to-state functions. -/

inductive PyErr where
  | zeroDivisionError
  | typeError
  | attributeError
deriving DecidableEq, Repr

/-- Python `int(x)` on a float: truncation toward zero. -/
def pyInt (q : ℚ) : ℤ := if 0 ≤ q then ⌊q⌋ else ⌈q⌉

/-- Python division `a / b`, raising ZeroDivisionError on a zero denominator. -/
def pyDiv (a b : ℚ) : Except PyErr ℚ :=
  if b = 0 then .error .zeroDivisionError else .ok (a / b)

/-- `@dataclass ModelHardwarePerformance` (src/database.py lines 35-42),
the benchmark row of the `model_hardware_performance` table. -/
structure ModelHardwarePerformance where
  model_key : String
  hardware_name : String
  max_concurrent : ℤ
  memory_usage_gb : ℚ
  avg_response_time_ms : ℚ
deriving DecidableEq

/-- `@dataclass SLALevel` (src/database.py lines 60-67), a row of the
`sla_levels` table. -/
structure SLALevel where
  level : String
  name : String
  description : String
  availability_target : ℚ
  max_concurrent_ratio : ℚ
deriving DecidableEq

/-- `@dataclass HardwareConfig` (src/database.py lines 15-32), a row of the
`hardware_configs` table. -/
structure HardwareConfig where
  name : String
  gpu_type : String
  gpu_count : ℤ
  gpu_memory_gb : ℤ
  cpu_cores : ℤ
  memory_gb : ℤ
  storage_gb : ℤ
  prefill_tps : ℤ
  decode_tps : ℤ
  max_concurrent_requests : ℤ
  purchase_cost_yuan : ℚ
  monthly_rental_cost_yuan : ℚ
  power_consumption_w : ℤ
  monthly_maintenance_cost_yuan : ℚ
  depreciation_years : ℤ
deriving DecidableEq

/-- `@dataclass ModelPricing` of src/database.py (lines 45-57), a row of the
`model_pricing` table; `last_updated` is an abstract timestamp. -/
structure ModelPricing where
  model_key : String
  model_name : String
  category : String
  input_price_per_m : ℚ
  output_price_per_m : ℚ
  description : String
  provider : String
  parameter_size : String
  model_type : String
  last_updated : ℕ
deriving DecidableEq

/-- A row of the append-only `model_pricing_history` table
(src/database.py lines 100-115): the nine persisted record fields plus the
`updated_at` timestamp. -/
structure ModelPricingHistoryRow where
  model_key : String
  model_name : String
  category : String
  input_price_per_m : ℚ
  output_price_per_m : ℚ
  description : String
  provider : String
  parameter_size : String
  model_type : String
  updated_at : ℕ
deriving DecidableEq

/-- The composite key of the `hardware_model_sla_capacity` cache table
(UNIQUE(hardware_name, model_key, sla_level, input_tokens, output_tokens),
src/database.py line 184). -/
structure CapacityKey where
  hardware_name : String
  model_key : String
  sla_level : String
  input_tokens : ℤ
  output_tokens : ℤ
deriving DecidableEq

/-- The four value fields of a `hardware_model_sla_capacity` row, which are
also the dict returned by `calculate_hardware_capacity`
(src/database.py lines 258-263 and 319-324). -/
structure CapacityResult where
  max_concurrent_requests : ℤ
  effective_qps : ℚ
  memory_usage_percent : ℚ
  cpu_usage_percent : ℚ
deriving DecidableEq

/-- The mutable database state: each SQLite table of src/database.py
(lines 77-190) as a keyed lookup, and the history table as the list of its
rows in insertion order. -/
structure TokenServiceDatabase where
  model_pricing : String → Option ModelPricing
  model_pricing_history : List ModelPricingHistoryRow
  hardware_configs : String → Option HardwareConfig
  model_hardware_performance : String → String → Option ModelHardwarePerformance
  sla_levels : String → Option SLALevel
  hardware_model_sla_capacity : CapacityKey → Option CapacityResult

/-- `add_hardware_config` (src/database.py lines 192-211): INSERT OR REPLACE
keyed by `name`. -/
def TokenServiceDatabase.add_hardware_config (db : TokenServiceDatabase)
    (hardware : HardwareConfig) : TokenServiceDatabase :=
  { db with hardware_configs := fun n =>
      if n = hardware.name then some hardware else db.hardware_configs n }

/-- `add_model_hardware_performance` (src/database.py lines 213-227):
INSERT OR REPLACE keyed by (model_key, hardware_name). -/
def TokenServiceDatabase.add_model_hardware_performance (db : TokenServiceDatabase)
    (performance : ModelHardwarePerformance) : TokenServiceDatabase :=
  { db with model_hardware_performance := fun h m =>
      if h = performance.hardware_name ∧ m = performance.model_key then some performance
      else db.model_hardware_performance h m }

/-- `add_sla_level` (src/database.py lines 229-239): INSERT OR REPLACE keyed
by `level`. -/
def TokenServiceDatabase.add_sla_level (db : TokenServiceDatabase)
    (sla : SLALevel) : TokenServiceDatabase :=
  { db with sla_levels := fun l =>
      if l = sla.level then some sla else db.sla_levels l }

/-- `token_ratio = (input_tokens + output_tokens) / 10000` (src/database.py
line 310); 10000 is the fixed baseline token volume. -/
def tokenRatio (input_tokens output_tokens : ℤ) : ℚ :=
  ((input_tokens + output_tokens : ℤ) : ℚ) / 10000

/-- `adjusted_concurrent = int(max_concurrent / max(1.0, token_ratio * 0.5))`
(src/database.py line 311). -/
def adjustedConcurrent (max_concurrent input_tokens output_tokens : ℤ) : ℤ :=
  pyInt ((max_concurrent : ℚ) / max 1 (tokenRatio input_tokens output_tokens * (0.5 : ℚ)))

/-- `effective_concurrent = int(adjusted_concurrent * concurrent_ratio *
availability)` (src/database.py line 314). -/
def effectiveConcurrent (max_concurrent input_tokens output_tokens : ℤ)
    (concurrent_ratio availability : ℚ) : ℤ :=
  pyInt ((adjustedConcurrent max_concurrent input_tokens output_tokens : ℚ)
    * concurrent_ratio * availability)

/-- `_calculate_new_capacity` (src/database.py lines 277-324).  `.ok none` is
the Python `return None` for a missing benchmark row or unknown SLA level;
`.error .zeroDivisionError` is where a Python division raises (the
`effective_concurrent / (baseline_response_time / 1000)` and
`effective_concurrent / max_concurrent` divisions, lines 317 and 322-323,
have data denominators and are not guarded). -/
def TokenServiceDatabase.calcNewCapacity (db : TokenServiceDatabase)
    (hardware_name model_key sla_level : String)
    (input_tokens output_tokens : ℤ) : Except PyErr (Option CapacityResult) :=
  match db.model_hardware_performance hardware_name model_key with
  | none => .ok none
  | some perf =>
    match db.sla_levels sla_level with
    | none => .ok none
    | some sla =>
      let max_concurrent : ℤ := perf.max_concurrent
      let baseline_response_time : ℚ := perf.avg_response_time_ms
      let concurrent_ratio : ℚ := sla.max_concurrent_ratio
      let availability : ℚ := sla.availability_target
      let effective_concurrent : ℤ :=
        effectiveConcurrent max_concurrent input_tokens output_tokens
          concurrent_ratio availability
      match pyDiv (effective_concurrent : ℚ) (baseline_response_time / 1000) with
      | .error e => .error e
      | .ok qps_base =>
        match pyDiv (effective_concurrent : ℚ) ((max_concurrent : ℤ) : ℚ) with
        | .error e => .error e
        | .ok usage_frac =>
          .ok (some {
            max_concurrent_requests := effective_concurrent
            effective_qps := qps_base * availability
            memory_usage_percent := usage_frac * 100
            cpu_usage_percent := min 95 (usage_frac * availability * 100) })

/-- `_cache_capacity` (src/database.py lines 326-341): INSERT OR REPLACE into
the capacity cache at the full 5-tuple key. -/
def TokenServiceDatabase.cacheCapacity (db : TokenServiceDatabase)
    (hardware_name model_key sla_level : String)
    (input_tokens output_tokens : ℤ) (capacity : CapacityResult) : TokenServiceDatabase :=
  { db with hardware_model_sla_capacity := fun k =>
      if k = ⟨hardware_name, model_key, sla_level, input_tokens, output_tokens⟩ then some capacity
      else db.hardware_model_sla_capacity k }

/-- `calculate_hardware_capacity` (src/database.py lines 241-275): return the
cached row when the 5-tuple key is present, else derive; a produced result
is cached before being returned, a `None` result is not. -/
def TokenServiceDatabase.calculate_hardware_capacity (db : TokenServiceDatabase)
    (hardware_name model_key sla_level : String)
    (input_tokens output_tokens : ℤ) :
    Except PyErr (Option CapacityResult × TokenServiceDatabase) :=
  match db.hardware_model_sla_capacity
      ⟨hardware_name, model_key, sla_level, input_tokens, output_tokens⟩ with
  | some cached => .ok (some cached, db)
  | none =>
    match db.calcNewCapacity hardware_name model_key sla_level input_tokens output_tokens with
    | .error e => .error e
    | .ok none => .ok (none, db)
    | .ok (some capacity) =>
        .ok (some capacity,
          db.cacheCapacity hardware_name model_key sla_level input_tokens output_tokens capacity)

/-- The history row `add_model_pricing` inserts for a superseded record: the
nine SELECTed fields of the old row plus the insertion timestamp
(src/database.py lines 374-388). -/
def historyRowOf (p : ModelPricing) (now : ℕ) : ModelPricingHistoryRow :=
  { model_key := p.model_key
    model_name := p.model_name
    category := p.category
    input_price_per_m := p.input_price_per_m
    output_price_per_m := p.output_price_per_m
    description := p.description
    provider := p.provider
    parameter_size := p.parameter_size
    model_type := p.model_type
    updated_at := now }

/-- `add_model_pricing` (src/database.py lines 368-400): when a current row
exists for the key, first INSERT it into `model_pricing_history`, then
INSERT OR REPLACE the current row with `last_updated = now`. -/
def TokenServiceDatabase.add_model_pricing (db : TokenServiceDatabase)
    (pricing : ModelPricing) (now : ℕ) : TokenServiceDatabase :=
  let db1 : TokenServiceDatabase :=
    match db.model_pricing pricing.model_key with
    | some existing =>
        { db with model_pricing_history :=
            db.model_pricing_history ++ [historyRowOf existing now] }
    | none => db
  { db1 with model_pricing := fun k =>
      if k = pricing.model_key then some { pricing with last_updated := now }
      else db1.model_pricing k }

/- The calculator of src/token_service_calculator.py.  Its own dataclasses
(lines 14-54) are distinct from the database's. -/

/-- `@dataclass ModelPricing` of src/token_service_calculator.py
(lines 14-19), the calculator's pricing configuration. -/
structure ModelPricingCalc where
  model_name : String
  input_price_per_m : ℚ
  output_price_per_m : ℚ
deriving DecidableEq

/-- `@dataclass ServiceProfile` (src/token_service_calculator.py
lines 28-33). -/
structure ServiceProfile where
  input_tokens : ℤ
  output_tokens : ℤ
  response_time : ℚ
deriving DecidableEq

/-- `@dataclass HardwarePerformance` (src/token_service_calculator.py
lines 36-45). -/
structure HardwarePerformance where
  hardware_name : String
  prefill_tps : ℚ
  decode_tps : ℚ
  max_concurrent_requests : ℤ
  cost_mode : String
  gpu_count : ℤ
  power_consumption_w : ℤ
deriving DecidableEq

/-- `@dataclass ServiceParameters` (src/token_service_calculator.py
lines 48-54). -/
structure ServiceParameters where
  lifecycle_years : ℤ
  average_load_factor : ℚ
  uptime_percentage : ℚ
  sla_level : String
deriving DecidableEq

/-- The `TokenServiceCalculator` object state (src/token_service_calculator.py
lines 63-71): the four optional configuration slots plus the database
handle created in `__init__`. -/
structure TokenServiceCalculator where
  model_pricing : Option ModelPricingCalc
  service_profile : Option ServiceProfile
  hardware : Option HardwarePerformance
  service_params : Option ServiceParameters
  db : TokenServiceDatabase

/-- `ModelPricing.calculate_request_revenue` (src/token_service_calculator.py
lines 21-25). -/
def ModelPricingCalc.calculate_request_revenue (mp : ModelPricingCalc)
    (input_tokens output_tokens : ℤ) : ℚ :=
  (input_tokens : ℚ) / 1000000 * mp.input_price_per_m
    + (output_tokens : ℚ) / 1000000 * mp.output_price_per_m

/-- The dict returned by `calculate_single_service_metrics`
(src/token_service_calculator.py lines 148-154). -/
structure SingleServiceMetrics where
  revenue_per_request : ℚ
  processing_time : ℚ
  qps_per_instance : ℚ
  daily_requests_per_instance : ℚ
  daily_revenue_per_instance : ℚ
deriving DecidableEq

/-- `calculate_single_service_metrics` (src/token_service_calculator.py
lines 126-154).  The divisions by `prefill_tps` and `decode_tps` have data
denominators; the `1 / processing_time` division is guarded by
`if processing_time > 0 else 0`.  Accessing a field of an unset `None`
slot raises AttributeError. -/
def TokenServiceCalculator.calculate_single_service_metrics
    (self : TokenServiceCalculator) : Except PyErr SingleServiceMetrics :=
  match self.model_pricing, self.service_profile, self.hardware, self.service_params with
  | some mp, some spf, some hw, some params =>
    let revenue_per_request := mp.calculate_request_revenue spf.input_tokens spf.output_tokens
    match pyDiv (spf.input_tokens : ℚ) hw.prefill_tps with
    | .error e => .error e
    | .ok prefill_time =>
      match pyDiv (spf.output_tokens : ℚ) hw.decode_tps with
      | .error e => .error e
      | .ok decode_time =>
        let processing_time := prefill_time + decode_time
        let qps_per_instance := if 0 < processing_time then 1 / processing_time else 0
        let daily_requests_per_instance :=
          qps_per_instance * 3600 * 24 * params.uptime_percentage
        .ok { revenue_per_request := revenue_per_request
              processing_time := processing_time
              qps_per_instance := qps_per_instance
              daily_requests_per_instance := daily_requests_per_instance
              daily_revenue_per_instance := daily_requests_per_instance * revenue_per_request }
  | _, _, _, _ => .error .attributeError

/-- The dict returned by the calculator's own `calculate_hardware_capacity`
(src/token_service_calculator.py lines 168-172); `min` of an int and a
float is a float, hence rational fields. -/
structure HardwareCapacityMetrics where
  max_concurrent_requests : ℚ
  total_qps : ℚ
  instances_count : ℚ
deriving DecidableEq

/-- The calculator's `calculate_hardware_capacity`
(src/token_service_calculator.py lines 156-172).  The division by
`input_tokens` has a data denominator; the `1 / response_time` division is
guarded by `if response_time > 0 else 0` and returns 0 otherwise. -/
def TokenServiceCalculator.calculate_hardware_capacity
    (self : TokenServiceCalculator) : Except PyErr HardwareCapacityMetrics :=
  match self.service_profile, self.hardware with
  | some spf, some hw =>
    match pyDiv hw.prefill_tps (spf.input_tokens : ℚ) with
    | .error e => .error e
    | .ok per_request_rate =>
      let effective_concurrent_requests :=
        min ((hw.max_concurrent_requests : ℤ) : ℚ) (per_request_rate * 10)
      let single_qps := if 0 < spf.response_time then 1 / spf.response_time else 0
      .ok { max_concurrent_requests := effective_concurrent_requests
            total_qps := effective_concurrent_requests * single_qps
            instances_count := effective_concurrent_requests }
  | _, _ => .error .attributeError

/-- The `cost_details` sub-dict of `calculate_hardware_cost`
(src/token_service_calculator.py lines 209-213). -/
structure CostDetails where
  mode : String
  hardware_name : String
  gpu_count : ℤ
deriving DecidableEq

/-- The dict returned by `calculate_hardware_cost`
(src/token_service_calculator.py lines 177 and 206-214); the early-return
branch carries an empty `cost_details` dict, modelled as `none`. -/
structure HardwareCost where
  monthly_cost : ℚ
  lifecycle_cost : ℚ
  cost_details : Option CostDetails
deriving DecidableEq

/-- `calculate_hardware_cost` (src/token_service_calculator.py
lines 174-214).  `ELECTRICITY_RATE` is the literal `0.8` yuan per kWh; the
only data denominator is `hw_config.depreciation_years` in the purchase
branch when the hardware name is found in the database. -/
def TokenServiceCalculator.calculate_hardware_cost
    (self : TokenServiceCalculator) : Except PyErr HardwareCost :=
  match self.hardware with
  | none => .ok { monthly_cost := 0, lifecycle_cost := 0, cost_details := none }
  | some hw =>
    match self.service_params with
    | none => .error .attributeError
    | some params =>
      let monthly_cost : Except PyErr ℚ :=
        match self.db.hardware_configs hw.hardware_name with
        | none =>
          if hw.cost_mode = "rental" then .ok 8000
          else
            let monthly_power_cost : ℚ :=
              ((hw.power_consumption_w * 24 * 30 : ℤ) : ℚ) / 1000 * (0.8 : ℚ)
            .ok ((80000 : ℚ) / 5 / 12 + 500 + monthly_power_cost)
        | some hw_config =>
          if hw.cost_mode = "rental" then .ok hw_config.monthly_rental_cost_yuan
          else
            match pyDiv hw_config.purchase_cost_yuan ((hw_config.depreciation_years : ℤ) : ℚ) with
            | .error e => .error e
            | .ok dep_per_year =>
              let monthly_depreciation := dep_per_year / 12
              let monthly_power_cost : ℚ :=
                ((hw_config.power_consumption_w * 24 * 30 : ℤ) : ℚ) / 1000 * (0.8 : ℚ)
              .ok (monthly_depreciation + hw_config.monthly_maintenance_cost_yuan
                    + monthly_power_cost)
      match monthly_cost with
      | .error e => .error e
      | .ok m =>
        .ok { monthly_cost := m
              lifecycle_cost := m * 12 * (params.lifecycle_years : ℚ)
              cost_details := some { mode := hw.cost_mode
                                     hardware_name := hw.hardware_name
                                     gpu_count := hw.gpu_count } }

/-- A character the regex class `[a-z0-9]` of `_get_model_key_from_pricing`
keeps (the name is lowercased first). -/
def isModelKeyChar (c : Char) : Bool :=
  (97 ≤ c.toNat ∧ c.toNat ≤ 122) ∨ (48 ≤ c.toNat ∧ c.toNat ≤ 57)

/-- Collapse consecutive dashes, the effect of substituting a single dash
for each maximal run matched by `[^a-z0-9]+`. -/
def collapseDashes : List Char → List Char
  | [] => []
  | a :: rest =>
    let r := collapseDashes rest
    if a = '-' ∧ r.head? = some '-' then r else a :: r

/-- `_get_model_key_from_pricing` (src/token_service_calculator.py
lines 245-252): lowercase the model name, replace each run of characters
outside `[a-z0-9]` with a single dash, and strip leading and trailing
dashes. -/
def TokenServiceCalculator.modelKeyFromPricing (mp : ModelPricingCalc) : String :=
  let lowered := mp.model_name.toLower
  let dashed := collapseDashes
    (lowered.toList.map (fun c => if isModelKeyChar c then c else '-'))
  String.mk (((dashed.dropWhile (fun c => c = '-')).reverse.dropWhile
    (fun c => c = '-')).reverse)

/-- The Python call `self.db.calculate_hardware_capacity(a, b, c)` inside
`get_effective_concurrency` (src/token_service_calculator.py lines 223-227)
passes 3 positional arguments to a method whose signature requires 5
(src/database.py lines 241-242: `hardware_name, model_key, sla_level,
input_tokens, output_tokens`, none with a default), so Python raises
TypeError at the call site, before the method body can run or touch the
database. -/
def dbCapacityCallWith3Args (db : TokenServiceDatabase)
    (hardware_name model_key sla_level : String) :
    Except PyErr (Option CapacityResult × TokenServiceDatabase) :=
  .error .typeError

/-- The `sla_configs` dict of `get_effective_concurrency`
(src/token_service_calculator.py lines 235-242) read through
`.get(sla_level, 0.8)`. -/
def slaConfigsGet (sla_level : String) : ℚ :=
  if sla_level = "basic" then (1.0 : ℚ)
  else if sla_level = "standard" then (0.8 : ℚ)
  else if sla_level = "premium" then (0.6 : ℚ)
  else if sla_level = "enterprise" then (0.4 : ℚ)
  else (0.8 : ℚ)

/-- `get_effective_concurrency` (src/token_service_calculator.py
lines 216-243).  The guard `if not all([...])` falls back to the raw
hardware ceiling when a slot is unset; otherwise the database call raises
TypeError (see `dbCapacityCallWith3Args`), `except Exception: pass`
swallows it, and the static `sla_configs` path computes
`int(max_concurrent_requests * sla_ratio)`.  Returns the integer together
with the database state after the call. -/
def TokenServiceCalculator.get_effective_concurrency
    (self : TokenServiceCalculator) : ℤ × TokenServiceDatabase :=
  match self.model_pricing, self.hardware, self.service_params with
  | some mp, some hw, some params =>
    match dbCapacityCallWith3Args self.db hw.hardware_name
        (TokenServiceCalculator.modelKeyFromPricing mp) params.sla_level with
    | .ok (some capacity, db1) => (capacity.max_concurrent_requests, db1)
    | .ok (none, db1) =>
        (pyInt ((hw.max_concurrent_requests : ℚ) * slaConfigsGet params.sla_level), db1)
    | .error _ =>
        (pyInt ((hw.max_concurrent_requests : ℚ) * slaConfigsGet params.sla_level), self.db)
  | _, _, _ =>
    (match self.hardware with
     | some hw => hw.max_concurrent_requests
     | none => 0, self.db)

/-- The dict returned by `calculate_lifecycle_revenue`
(src/token_service_calculator.py lines 288-301). -/
structure LifecycleRevenue where
  single_request_revenue : ℚ
  effective_qps : ℚ
  daily_total_requests : ℚ
  daily_revenue : ℚ
  daily_net_revenue : ℚ
  annual_revenue : ℚ
  annual_net_revenue : ℚ
  lifecycle_revenue : ℚ
  lifecycle_net_revenue : ℚ
  concurrent_capacity : ℤ
  utilization_rate : ℚ
  hardware_cost : HardwareCost
deriving DecidableEq

/-- `calculate_lifecycle_revenue` (src/token_service_calculator.py
lines 254-301), in source order: single-service metrics first, then
`get_effective_concurrency`, then the unguarded division
`total_qps = effective_concurrent_requests / self.service_profile.response_time`
(line 261), then the revenue arithmetic and `calculate_hardware_cost`.
Returns the projection with the database state after the call. -/
def TokenServiceCalculator.calculate_lifecycle_revenue
    (self : TokenServiceCalculator) : Except PyErr (LifecycleRevenue × TokenServiceDatabase) :=
  match self.service_profile, self.service_params with
  | some spf, some params =>
    match self.calculate_single_service_metrics with
    | .error e => .error e
    | .ok single_metrics =>
      let ec := self.get_effective_concurrency
      let effective_concurrent_requests : ℤ := ec.1
      match pyDiv (effective_concurrent_requests : ℚ) spf.response_time with
      | .error e => .error e
      | .ok total_qps =>
        let effective_qps := total_qps * params.average_load_factor
        let daily_total_requests := effective_qps * 3600 * 24
        let daily_total_revenue := daily_total_requests * single_metrics.revenue_per_request
        let total_days : ℚ := (params.lifecycle_years : ℚ) * 365
        let lifecycle_revenue := daily_total_revenue * total_days
        let annual_revenue := daily_total_revenue * 365
        match self.calculate_hardware_cost with
        | .error e => .error e
        | .ok hardware_cost =>
          .ok ({ single_request_revenue := single_metrics.revenue_per_request
                 effective_qps := effective_qps
                 daily_total_requests := daily_total_requests
                 daily_revenue := daily_total_revenue
                 daily_net_revenue := daily_total_revenue - hardware_cost.monthly_cost / 30
                 annual_revenue := annual_revenue
                 annual_net_revenue := annual_revenue - hardware_cost.monthly_cost * 12
                 lifecycle_revenue := lifecycle_revenue
                 lifecycle_net_revenue := lifecycle_revenue - hardware_cost.lifecycle_cost
                 concurrent_capacity := effective_concurrent_requests
                 utilization_rate := params.average_load_factor
                 hardware_cost := hardware_cost }, ec.2)
  | _, _ => .error .attributeError

deriving instance DecidableEq for Except

/- Concrete states used by scenario conjuncts, counterexamples and
witnesses.  They are built through the embedded write operations. -/

/-- A database with no rows. -/
def emptyDb : TokenServiceDatabase :=
  { model_pricing := fun _ => none
    model_pricing_history := []
    hardware_configs := fun _ => none
    model_hardware_performance := fun _ _ => none
    sla_levels := fun _ => none
    hardware_model_sla_capacity := fun _ => none }

/-- The `standard` SLA row of `init_default_data` (src/database.py
line 542): availability 0.995, concurrent ratio 0.8. -/
def standardSla : SLALevel :=
  { level := "standard", name := "standard service", description := ""
    availability_target := 0.995, max_concurrent_ratio := 0.8 }

/-- The benchmark row of `init_default_data` (src/database.py
lines 594-600): max_concurrent 200, avg_response_time_ms 5500 on
RTX4090x4. -/
def benchPerf : ModelHardwarePerformance :=
  { model_key := "moonshotai-kimi-k2-thinking", hardware_name := "RTX4090x4"
    max_concurrent := 200, memory_usage_gb := 80, avg_response_time_ms := 5500 }

/-- The database of the spec scenarios: the standard SLA level and the
RTX4090x4 benchmark row. -/
def benchDb : TokenServiceDatabase :=
  (emptyDb.add_sla_level standardSla).add_model_hardware_performance benchPerf

/-- The derived capacity row for Scenario A (tokens 1000/500 on the
benchmark above): 159 effective concurrent requests. -/
def scenarioARow : CapacityResult :=
  { max_concurrent_requests := 159, effective_qps := 31641 / 1100
    memory_usage_percent := 159 / 2, cpu_usage_percent := 31641 / 400 }

/-- `benchDb` with the Scenario A row stored in the capacity cache. -/
def benchDbCached : TokenServiceDatabase :=
  benchDb.cacheCapacity "RTX4090x4" "moonshotai-kimi-k2-thinking" "standard" 1000 500
    scenarioARow

/-- A benchmark row whose measured response time is zero (a
misconfiguration the spec says is guarded against). -/
def zeroRtPerf : ModelHardwarePerformance :=
  { model_key := "m-zero", hardware_name := "RTX4090x4"
    max_concurrent := 200, memory_usage_gb := 80, avg_response_time_ms := 0 }

/-- A database holding the standard SLA level and the zero-response-time
benchmark row. -/
def zeroRtDb : TokenServiceDatabase :=
  (emptyDb.add_sla_level standardSla).add_model_hardware_performance zeroRtPerf

/-- The calculator hardware of `create_example_calculator`
(src/token_service_calculator.py lines 378-386). -/
def sampleHardware : HardwarePerformance :=
  { hardware_name := "RTX4090x4", prefill_tps := 16000, decode_tps := 400
    max_concurrent_requests := 200, cost_mode := "rental", gpu_count := 4
    power_consumption_w := 1500 }

/-- A calculator pricing entry for the qwen2-7b model. -/
def samplePricing : ModelPricingCalc :=
  { model_name := "qwen2-7b", input_price_per_m := 1, output_price_per_m := 2 }

/-- The service profile of `create_example_calculator` (tokens 1000/500,
response time 3.5 s, src/token_service_calculator.py lines 370-374). -/
def sampleProfile : ServiceProfile :=
  { input_tokens := 1000, output_tokens := 500, response_time := 3.5 }

/-- `sampleProfile` with a zero response time. -/
def zeroRespProfile : ServiceProfile :=
  { input_tokens := 1000, output_tokens := 500, response_time := 0 }

/-- The service parameters of `create_example_calculator` (3 years, load
factor 0.3, uptime 0.95, standard SLA,
src/token_service_calculator.py lines 390-395). -/
def sampleParams : ServiceParameters :=
  { lifecycle_years := 3, average_load_factor := 0.3
    uptime_percentage := 0.95, sla_level := "standard" }

/-- A fully configured calculator over the given database state. -/
def fallbackCalc (db : TokenServiceDatabase) : TokenServiceCalculator :=
  { model_pricing := some samplePricing, service_profile := some sampleProfile
    hardware := some sampleHardware, service_params := some sampleParams, db := db }

/-- `fallbackCalc` with a zero-response-time service profile. -/
def zeroRespCalc (db : TokenServiceDatabase) : TokenServiceCalculator :=
  { fallbackCalc db with service_profile := some zeroRespProfile }

/-- The qwen2-7b benchmark row of `init_default_data` (src/database.py
lines 610-616): max_concurrent 250, avg_response_time_ms 4400. -/
def qwenPerf : ModelHardwarePerformance :=
  { model_key := "qwen2-7b", hardware_name := "RTX4090x4"
    max_concurrent := 250, memory_usage_gb := 60, avg_response_time_ms := 4400 }

/-- A database from which the qwen2-7b capacity could have been derived,
had the derivation been reachable. -/
def qwenDb : TokenServiceDatabase :=
  (emptyDb.add_sla_level standardSla).add_model_hardware_performance qwenPerf

/-- The lifecycle projection produced by a fully configured sample
calculator over a database with no hardware rows: every field is pure
arithmetic from the static fallback concurrency 160 = int(200 * 0.8) and
the default rental cost 8000. -/
def fallbackProjection : LifecycleRevenue :=
  { single_request_revenue := 1/500
    effective_qps := 96/7
    daily_total_requests := 8294400/7
    daily_revenue := 82944/35
    daily_net_revenue := 220832/105
    annual_revenue := 6054912/7
    annual_net_revenue := 5382912/7
    lifecycle_revenue := 18164736/7
    lifecycle_net_revenue := 16148736/7
    concurrent_capacity := 160
    utilization_rate := 3/10
    hardware_cost :=
      { monthly_cost := 8000, lifecycle_cost := 288000
        cost_details := some { mode := "rental", hardware_name := "RTX4090x4"
                               gpu_count := 4 } } }

/-- A current pricing row for qwen2-7b. -/
def samplePricingRow : ModelPricing :=
  { model_key := "qwen2-7b", model_name := "Qwen2 7B", category := "paid"
    input_price_per_m := 1, output_price_per_m := 2, description := ""
    provider := "", parameter_size := "7B", model_type := "Language"
    last_updated := 0 }

/-- `samplePricingRow` with a changed input price, superseding it. -/
def samplePricingRow2 : ModelPricing :=
  { samplePricingRow with input_price_per_m := 3 }

/-- A database holding `samplePricingRow` as the current qwen2-7b price. -/
def pricingDb : TokenServiceDatabase :=
  emptyDb.add_model_pricing samplePricingRow 0

/- Helper lemmas about the Python truncation `pyInt`. -/

theorem pyInt_of_nonneg {q : ℚ} (h : 0 ≤ q) : pyInt q = ⌊q⌋ := if_pos h

theorem pyInt_nonneg {q : ℚ} (h : 0 ≤ q) : 0 ≤ pyInt q := by
  rw [pyInt_of_nonneg h]
  exact Int.le_floor.mpr (by exact_mod_cast h)

theorem pyInt_mono {a b : ℚ} (ha : 0 ≤ a) (hab : a ≤ b) : pyInt a ≤ pyInt b := by
  rw [pyInt_of_nonneg ha, pyInt_of_nonneg (ha.trans hab)]
  exact Int.floor_le_floor hab

/-- The `max(1.0, token_ratio * 0.5)` denominator is at least 1, hence
positive. -/
theorem one_le_capacity_denominator (input_tokens output_tokens : ℤ) :
    1 ≤ max 1 (tokenRatio input_tokens output_tokens * (0.5 : ℚ)) :=
  le_max_left _ _

theorem capacity_denominator_pos (input_tokens output_tokens : ℤ) :
    0 < max 1 (tokenRatio input_tokens output_tokens * (0.5 : ℚ)) :=
  lt_of_lt_of_le one_pos (one_le_capacity_denominator input_tokens output_tokens)

theorem adjustedConcurrent_nonneg {max_concurrent : ℤ} (h : 0 ≤ max_concurrent)
    (input_tokens output_tokens : ℤ) :
    0 ≤ adjustedConcurrent max_concurrent input_tokens output_tokens :=
  pyInt_nonneg (div_nonneg (by exact_mod_cast h)
    (capacity_denominator_pos input_tokens output_tokens).le)

theorem effectiveConcurrent_nonneg {max_concurrent : ℤ}
    {concurrent_ratio availability : ℚ} (hmc : 0 ≤ max_concurrent)
    (hr : 0 ≤ concurrent_ratio) (ha : 0 ≤ availability)
    (input_tokens output_tokens : ℤ) :
    0 ≤ effectiveConcurrent max_concurrent input_tokens output_tokens
      concurrent_ratio availability :=
  pyInt_nonneg (mul_nonneg (mul_nonneg
    (by exact_mod_cast adjustedConcurrent_nonneg hmc input_tokens output_tokens) hr) ha)

/-- C1: for a benchmark row and a known service level with nonnegative
figures, the derivation computes
`effective_concurrency = floor(floor(max_concurrent / max(1.0,
((input_tokens + output_tokens) / 10000) * 0.5)) * max_concurrent_ratio *
availability_target)`; with max_concurrent = 200, ratio 0.8 and
availability 0.995 it returns 159 for tokens 1000/500 and 52 for tokens
50000/10000. -/
theorem capacity_effective_concurrency_formula :
    (∀ (max_concurrent input_tokens output_tokens : ℤ)
       (concurrent_ratio availability : ℚ),
       0 ≤ max_concurrent → 0 ≤ concurrent_ratio → 0 ≤ availability →
       effectiveConcurrent max_concurrent input_tokens output_tokens
           concurrent_ratio availability =
         ⌊(⌊(max_concurrent : ℚ) /
             max 1 (((input_tokens + output_tokens : ℤ) : ℚ) / 10000 * (0.5 : ℚ))⌋ : ℚ)
           * concurrent_ratio * availability⌋) ∧
    (benchDb.calcNewCapacity "RTX4090x4" "moonshotai-kimi-k2-thinking" "standard"
        1000 500).map (Option.map CapacityResult.max_concurrent_requests)
      = .ok (some 159) ∧
    (benchDb.calcNewCapacity "RTX4090x4" "moonshotai-kimi-k2-thinking" "standard"
        50000 10000).map (Option.map CapacityResult.max_concurrent_requests)
      = .ok (some 52) := by
  refine ⟨?_, ?_, ?_⟩
  · intro mc i o r a hmc hr ha
    have hX : (0 : ℚ) ≤ (mc : ℚ) / max 1 (tokenRatio i o * (0.5 : ℚ)) :=
      div_nonneg (by exact_mod_cast hmc) (capacity_denominator_pos i o).le
    have hadj : 0 ≤ (adjustedConcurrent mc i o : ℚ) := by
      exact_mod_cast adjustedConcurrent_nonneg hmc i o
    rw [effectiveConcurrent, pyInt_of_nonneg (mul_nonneg (mul_nonneg hadj hr) ha),
      adjustedConcurrent, pyInt_of_nonneg hX, tokenRatio]
  · simp only [benchDb, emptyDb, standardSla, benchPerf,
      TokenServiceDatabase.add_sla_level, TokenServiceDatabase.add_model_hardware_performance,
      TokenServiceDatabase.calcNewCapacity, effectiveConcurrent, adjustedConcurrent,
      tokenRatio, pyDiv, pyInt]
    norm_num
    rfl
  · simp only [benchDb, emptyDb, standardSla, benchPerf,
      TokenServiceDatabase.add_sla_level, TokenServiceDatabase.add_model_hardware_performance,
      TokenServiceDatabase.calcNewCapacity, effectiveConcurrent, adjustedConcurrent,
      tokenRatio, pyDiv, pyInt]
    norm_num
    rfl

/-- Witness for C1: the formula conjunct applied at the Scenario A numbers. -/
theorem capacity_effective_concurrency_formula_witness :
    effectiveConcurrent 200 1000 500 (0.8 : ℚ) (0.995 : ℚ) =
      ⌊(⌊(200 : ℚ) / max 1 (((1000 + 500 : ℤ) : ℚ) / 10000 * (0.5 : ℚ))⌋ : ℚ)
        * (0.8 : ℚ) * (0.995 : ℚ)⌋ :=
  capacity_effective_concurrency_formula.1 200 1000 500 (0.8 : ℚ) (0.995 : ℚ)
    (by norm_num) (by norm_num) (by norm_num)

/-- C7: for a fixed benchmark row and service level with nonnegative
figures, the derived effective concurrency never increases when the token
total `input_tokens + output_tokens` increases. -/
theorem effective_concurrency_antitone
    (max_concurrent : ℤ) (concurrent_ratio availability : ℚ)
    (i1 o1 i2 o2 : ℤ)
    (hmc : 0 ≤ max_concurrent) (hr : 0 ≤ concurrent_ratio) (ha : 0 ≤ availability)
    (ht : i1 + o1 ≤ i2 + o2) :
    effectiveConcurrent max_concurrent i2 o2 concurrent_ratio availability ≤
      effectiveConcurrent max_concurrent i1 o1 concurrent_ratio availability := by
  have hmcq : (0 : ℚ) ≤ (max_concurrent : ℚ) := by exact_mod_cast hmc
  have htq : ((i1 + o1 : ℤ) : ℚ) ≤ ((i2 + o2 : ℤ) : ℚ) := by exact_mod_cast ht
  have hd : max 1 (tokenRatio i1 o1 * (0.5 : ℚ)) ≤ max 1 (tokenRatio i2 o2 * (0.5 : ℚ)) := by
    apply max_le_max le_rfl
    apply mul_le_mul_of_nonneg_right _ (by norm_num)
    rw [tokenRatio, tokenRatio]
    exact div_le_div_of_nonneg_right htq (by norm_num)
  have hd1 : (0 : ℚ) < max 1 (tokenRatio i1 o1 * (0.5 : ℚ)) := capacity_denominator_pos i1 o1
  have hdiv : (max_concurrent : ℚ) / max 1 (tokenRatio i2 o2 * (0.5 : ℚ)) ≤
      (max_concurrent : ℚ) / max 1 (tokenRatio i1 o1 * (0.5 : ℚ)) :=
    div_le_div_of_nonneg_left hmcq hd1 hd
  have hadj : adjustedConcurrent max_concurrent i2 o2 ≤ adjustedConcurrent max_concurrent i1 o1 := by
    rw [adjustedConcurrent, adjustedConcurrent]
    exact pyInt_mono (div_nonneg hmcq (capacity_denominator_pos i2 o2).le) hdiv
  have hadj2 : (0 : ℚ) ≤ (adjustedConcurrent max_concurrent i2 o2 : ℚ) := by
    exact_mod_cast adjustedConcurrent_nonneg hmc i2 o2
  rw [effectiveConcurrent, effectiveConcurrent]
  apply pyInt_mono (mul_nonneg (mul_nonneg hadj2 hr) ha)
  apply mul_le_mul_of_nonneg_right _ ha
  apply mul_le_mul_of_nonneg_right _ hr
  exact_mod_cast hadj

/-- Witness for C7: the Scenario A and Scenario B token totals. -/
theorem effective_concurrency_antitone_witness :
    effectiveConcurrent 200 50000 10000 (0.8 : ℚ) (0.995 : ℚ) ≤
      effectiveConcurrent 200 1000 500 (0.8 : ℚ) (0.995 : ℚ) :=
  effective_concurrency_antitone 200 (0.8 : ℚ) (0.995 : ℚ) 1000 500 50000 10000
    (by norm_num) (by norm_num) (by norm_num) (by norm_num)

/-- C8: for a nonnegative benchmark `max_concurrent` and a service level
with ratio and availability in (0, 1], the derived effective concurrency
never exceeds the benchmarked `max_concurrent`. -/
theorem effective_concurrency_le_benchmark
    (max_concurrent input_tokens output_tokens : ℤ)
    (concurrent_ratio availability : ℚ)
    (hmc : 0 ≤ max_concurrent)
    (hr0 : 0 < concurrent_ratio) (hr1 : concurrent_ratio ≤ 1)
    (ha0 : 0 < availability) (ha1 : availability ≤ 1) :
    effectiveConcurrent max_concurrent input_tokens output_tokens
      concurrent_ratio availability ≤ max_concurrent := by
  have hmcq : (0 : ℚ) ≤ (max_concurrent : ℚ) := by exact_mod_cast hmc
  have hXnonneg : (0 : ℚ) ≤ (max_concurrent : ℚ) /
      max 1 (tokenRatio input_tokens output_tokens * (0.5 : ℚ)) :=
    div_nonneg hmcq (capacity_denominator_pos input_tokens output_tokens).le
  have hadj_le : adjustedConcurrent max_concurrent input_tokens output_tokens ≤ max_concurrent := by
    rw [adjustedConcurrent, pyInt_of_nonneg hXnonneg]
    calc ⌊(max_concurrent : ℚ) / max 1 (tokenRatio input_tokens output_tokens * (0.5 : ℚ))⌋
        ≤ ⌊(max_concurrent : ℚ)⌋ := Int.floor_le_floor
          (div_le_self hmcq (one_le_capacity_denominator input_tokens output_tokens))
      _ = max_concurrent := Int.floor_intCast max_concurrent
  have hadj0 : 0 ≤ adjustedConcurrent max_concurrent input_tokens output_tokens :=
    adjustedConcurrent_nonneg hmc input_tokens output_tokens
  have hadjq : (0 : ℚ) ≤ (adjustedConcurrent max_concurrent input_tokens output_tokens : ℚ) := by
    exact_mod_cast hadj0
  rw [effectiveConcurrent, pyInt_of_nonneg (mul_nonneg (mul_nonneg hadjq hr0.le) ha0.le)]
  calc ⌊(adjustedConcurrent max_concurrent input_tokens output_tokens : ℚ)
        * concurrent_ratio * availability⌋
      ≤ ⌊(adjustedConcurrent max_concurrent input_tokens output_tokens : ℚ)⌋ := by
        apply Int.floor_le_floor
        calc (adjustedConcurrent max_concurrent input_tokens output_tokens : ℚ)
              * concurrent_ratio * availability
            ≤ (adjustedConcurrent max_concurrent input_tokens output_tokens : ℚ)
              * concurrent_ratio := mul_le_of_le_one_right (mul_nonneg hadjq hr0.le) ha1
          _ ≤ (adjustedConcurrent max_concurrent input_tokens output_tokens : ℚ) :=
            mul_le_of_le_one_right hadjq hr1
    _ = adjustedConcurrent max_concurrent input_tokens output_tokens :=
        Int.floor_intCast _
    _ ≤ max_concurrent := hadj_le

/-- Witness for C8: the Scenario A numbers, 159 ≤ 200. -/
theorem effective_concurrency_le_benchmark_witness :
    effectiveConcurrent 200 1000 500 (0.8 : ℚ) (0.995 : ℚ) ≤ 200 :=
  effective_concurrency_le_benchmark 200 1000 500 (0.8 : ℚ) (0.995 : ℚ)
    (by norm_num) (by norm_num) (by norm_num) (by norm_num) (by norm_num)

/-- C2: a stored cache row is returned verbatim, with no recomputation and
no state change; consequently, after any call that returns a produced
result, a repeat call with the identical key returns the same four value
fields, field for field. -/
theorem cache_hit_returns_stored :
    (∀ (db : TokenServiceDatabase) (h m s : String) (i o : ℤ) (v : CapacityResult),
      db.hardware_model_sla_capacity ⟨h, m, s, i, o⟩ = some v →
      db.calculate_hardware_capacity h m s i o = .ok (some v, db)) ∧
    (∀ (db db2 : TokenServiceDatabase) (h m s : String) (i o : ℤ) (r : CapacityResult),
      db.calculate_hardware_capacity h m s i o = .ok (some r, db2) →
      db2.calculate_hardware_capacity h m s i o = .ok (some r, db2)) := by
  constructor
  · intro db h m s i o v hv
    unfold TokenServiceDatabase.calculate_hardware_capacity
    rw [hv]
  · intro db db2 h m s i o r hcall
    unfold TokenServiceDatabase.calculate_hardware_capacity at hcall
    cases hcache : db.hardware_model_sla_capacity ⟨h, m, s, i, o⟩ with
    | some cached =>
      rw [hcache] at hcall
      simp only [Except.ok.injEq, Prod.mk.injEq, Option.some.injEq] at hcall
      obtain ⟨rfl, rfl⟩ := hcall
      unfold TokenServiceDatabase.calculate_hardware_capacity
      rw [hcache]
    | none =>
      rw [hcache] at hcall
      cases hcalc : db.calcNewCapacity h m s i o with
      | error e => rw [hcalc] at hcall; exact absurd hcall (by simp)
      | ok c =>
        cases c with
        | none => rw [hcalc] at hcall; exact absurd hcall (by simp)
        | some capacity =>
          rw [hcalc] at hcall
          simp only [Except.ok.injEq, Prod.mk.injEq, Option.some.injEq] at hcall
          obtain ⟨rfl, rfl⟩ := hcall
          unfold TokenServiceDatabase.calculate_hardware_capacity
          simp [TokenServiceDatabase.cacheCapacity]

/-- Witness for C2: a database holding a stored row for the key returns
that row and the unchanged state. -/
theorem cache_hit_returns_stored_witness :
    benchDbCached.calculate_hardware_capacity
        "RTX4090x4" "moonshotai-kimi-k2-thinking" "standard" 1000 500
      = .ok (some scenarioARow, benchDbCached) :=
  cache_hit_returns_stored.1 benchDbCached
    "RTX4090x4" "moonshotai-kimi-k2-thinking" "standard" 1000 500 scenarioARow
    (by simp [benchDbCached, TokenServiceDatabase.cacheCapacity])

/-- C6: on a cache miss, a missing benchmark row or an unknown SLA level
yields `None` with the state unchanged (the NotFound outcome is not
persisted), and a produced result is stored at the full 5-tuple key before
being returned. -/
theorem notfound_never_cached :
    (∀ (db : TokenServiceDatabase) (h m s : String) (i o : ℤ),
      db.hardware_model_sla_capacity ⟨h, m, s, i, o⟩ = none →
      (db.model_hardware_performance h m = none ∨ db.sla_levels s = none) →
      db.calculate_hardware_capacity h m s i o = .ok (none, db)) ∧
    (∀ (db db2 : TokenServiceDatabase) (h m s : String) (i o : ℤ) (r : CapacityResult),
      db.hardware_model_sla_capacity ⟨h, m, s, i, o⟩ = none →
      db.calculate_hardware_capacity h m s i o = .ok (some r, db2) →
      db2 = db.cacheCapacity h m s i o r) := by
  constructor
  · intro db h m s i o hcache hmiss
    unfold TokenServiceDatabase.calculate_hardware_capacity
    rw [hcache]
    have hcalc : db.calcNewCapacity h m s i o = .ok none := by
      unfold TokenServiceDatabase.calcNewCapacity
      rcases hmiss with hperf | hsla
      · rw [hperf]
      · cases hperf : db.model_hardware_performance h m with
        | none => rfl
        | some perf => rw [hsla]
    rw [hcalc]
  · intro db db2 h m s i o r hcache hcall
    unfold TokenServiceDatabase.calculate_hardware_capacity at hcall
    rw [hcache] at hcall
    cases hcalc : db.calcNewCapacity h m s i o with
    | error e => rw [hcalc] at hcall; exact absurd hcall (by simp)
    | ok c =>
      cases c with
      | none => rw [hcalc] at hcall; exact absurd hcall (by simp)
      | some capacity =>
        rw [hcalc] at hcall
        simp only [Except.ok.injEq, Prod.mk.injEq, Option.some.injEq] at hcall
        obtain ⟨rfl, rfl⟩ := hcall
        rfl

/-- Witness for C6: the empty database has no benchmark row, so the call
returns `None` and the state is unchanged. -/
theorem notfound_never_cached_witness :
    emptyDb.calculate_hardware_capacity "RTX4090x4" "unknown-model" "standard" 1000 500
      = .ok (none, emptyDb) :=
  notfound_never_cached.1 emptyDb "RTX4090x4" "unknown-model" "standard" 1000 500
    rfl (Or.inl rfl)

/-- C3 counterexample: with a benchmark row whose `avg_response_time_ms` is
zero, the derivation raises ZeroDivisionError; it does not return the
NotFound outcome (`None`). -/
theorem zero_response_time_raises_counterexample :
    zeroRtDb.calcNewCapacity "RTX4090x4" "m-zero" "standard" 1000 500
        = .error .zeroDivisionError ∧
    zeroRtDb.calcNewCapacity "RTX4090x4" "m-zero" "standard" 1000 500 ≠ .ok none := by
  have herr : zeroRtDb.calcNewCapacity "RTX4090x4" "m-zero" "standard" 1000 500
      = .error .zeroDivisionError := by
    simp only [zeroRtDb, emptyDb, standardSla, zeroRtPerf,
      TokenServiceDatabase.add_sla_level, TokenServiceDatabase.add_model_hardware_performance,
      TokenServiceDatabase.calcNewCapacity, pyDiv]
    norm_num
  exact ⟨herr, by rw [herr]; simp⟩

/-- C3 amended: when the looked-up benchmark row has zero
`avg_response_time_ms` or zero `max_concurrent`, the derivation raises
ZeroDivisionError (an unguarded division), rather than treating the zero
denominator as a NotFound-equivalent misconfiguration. -/
theorem zero_denominator_raises_zero_division
    (db : TokenServiceDatabase) (h m s : String) (i o : ℤ)
    (perf : ModelHardwarePerformance) (sla : SLALevel)
    (hperf : db.model_hardware_performance h m = some perf)
    (hsla : db.sla_levels s = some sla)
    (hzero : perf.avg_response_time_ms = 0 ∨ perf.max_concurrent = 0) :
    db.calcNewCapacity h m s i o = .error .zeroDivisionError := by
  unfold TokenServiceDatabase.calcNewCapacity
  by_cases hrt : perf.avg_response_time_ms = 0
  · simp only [hperf, hsla, hrt]
    norm_num [pyDiv]
  · have hmc : perf.max_concurrent = 0 := by tauto
    simp only [hperf, hsla, hmc]
    simp [pyDiv, div_eq_zero_iff, hrt]

/-- Witness for C3's amended theorem: the zero-response-time database. -/
theorem zero_denominator_raises_zero_division_witness :
    zeroRtDb.calcNewCapacity "RTX4090x4" "m-zero" "standard" 1000 500
      = .error .zeroDivisionError :=
  zero_denominator_raises_zero_division zeroRtDb "RTX4090x4" "m-zero" "standard"
    1000 500 zeroRtPerf standardSla
    (by simp [zeroRtDb, emptyDb, TokenServiceDatabase.add_sla_level,
      TokenServiceDatabase.add_model_hardware_performance, zeroRtPerf])
    (by simp [zeroRtDb, emptyDb, TokenServiceDatabase.add_sla_level,
      TokenServiceDatabase.add_model_hardware_performance, standardSla, zeroRtPerf])
    (Or.inl rfl)

/-- On a fully configured calculator the database capacity call raises
TypeError before touching the database and is swallowed, so
`get_effective_concurrency` computes the static fallback and returns the
database state unchanged. -/
theorem gec_static (c : TokenServiceCalculator)
    (mp : ModelPricingCalc) (hw : HardwarePerformance) (sp : ServiceParameters)
    (hmp : c.model_pricing = some mp) (hhw : c.hardware = some hw)
    (hsp : c.service_params = some sp) :
    c.get_effective_concurrency =
      (pyInt ((hw.max_concurrent_requests : ℚ) * slaConfigsGet sp.sla_level), c.db) := by
  unfold TokenServiceCalculator.get_effective_concurrency
  simp only [hmp, hhw, hsp, dbCapacityCallWith3Args]

/-- C5: with pricing, hardware and service parameters all set, the database
derivation attempt always fails (three arguments to a five-parameter
method, TypeError swallowed), so the result is
`int(hardware.max_concurrent_requests * r)` with `r` drawn from the static
table — 1.0, 0.8, 0.6, 0.4 for basic, standard, premium, enterprise and
0.8 for any other level — the database state is returned unchanged, and
the result does not depend on the database contents at all. -/
theorem get_effective_concurrency_always_static :
    (∀ (c : TokenServiceCalculator) (mp : ModelPricingCalc)
       (hw : HardwarePerformance) (sp : ServiceParameters),
       c.model_pricing = some mp → c.hardware = some hw → c.service_params = some sp →
       c.get_effective_concurrency.1
           = pyInt ((hw.max_concurrent_requests : ℚ) * slaConfigsGet sp.sla_level) ∧
       c.get_effective_concurrency.2 = c.db ∧
       ∀ db2 : TokenServiceDatabase,
         (TokenServiceCalculator.get_effective_concurrency
           { c with db := db2 }).1 = c.get_effective_concurrency.1) ∧
    slaConfigsGet "basic" = 1 ∧ slaConfigsGet "standard" = 0.8 ∧
    slaConfigsGet "premium" = 0.6 ∧ slaConfigsGet "enterprise" = 0.4 ∧
    ∀ s : String, s ≠ "basic" → s ≠ "standard" → s ≠ "premium" → s ≠ "enterprise" →
      slaConfigsGet s = 0.8 := by
  refine ⟨?_, by simp [slaConfigsGet]; norm_num, by simp [slaConfigsGet],
    by simp [slaConfigsGet], by simp [slaConfigsGet], ?_⟩
  · intro c mp hw sp hmp hhw hsp
    refine ⟨?_, ?_, ?_⟩
    · rw [gec_static c mp hw sp hmp hhw hsp]
    · rw [gec_static c mp hw sp hmp hhw hsp]
    · intro db2
      rw [gec_static c mp hw sp hmp hhw hsp,
        gec_static { c with db := db2 } mp hw sp hmp hhw hsp]
  · intro s h1 h2 h3 h4
    simp [slaConfigsGet, h1, h2, h3, h4]

/-- Witness for C5: the sample calculator over the empty database computes
int(200 * 0.8) = 160. -/
theorem get_effective_concurrency_always_static_witness :
    (fallbackCalc emptyDb).get_effective_concurrency.1 = 160 := by
  rw [(get_effective_concurrency_always_static.1 (fallbackCalc emptyDb) samplePricing
    sampleHardware sampleParams rfl rfl rfl).1]
  simp only [sampleHardware, sampleParams, slaConfigsGet, String.reduceEq, reduceIte]
  norm_num [pyInt]

/-- Evaluating the sample calculator over the empty database: the
projection is built on the static fallback concurrency 160. -/
theorem lr_empty :
    (fallbackCalc emptyDb).calculate_lifecycle_revenue = .ok (fallbackProjection, emptyDb) := by
  simp only [fallbackCalc, samplePricing, sampleProfile, sampleHardware, sampleParams,
    emptyDb, fallbackProjection,
    TokenServiceCalculator.calculate_lifecycle_revenue,
    TokenServiceCalculator.calculate_single_service_metrics,
    ModelPricingCalc.calculate_request_revenue,
    TokenServiceCalculator.get_effective_concurrency, dbCapacityCallWith3Args,
    slaConfigsGet, TokenServiceCalculator.calculate_hardware_cost, pyDiv, pyInt,
    String.reduceEq, reduceIte]
  norm_num

/-- Evaluating the sample calculator over the database that could have
derived the qwen2-7b capacity: the identical projection. -/
theorem lr_qwen :
    (fallbackCalc qwenDb).calculate_lifecycle_revenue = .ok (fallbackProjection, qwenDb) := by
  simp only [fallbackCalc, samplePricing, sampleProfile, sampleHardware, sampleParams,
    emptyDb, qwenDb, qwenPerf, standardSla, TokenServiceDatabase.add_sla_level,
    TokenServiceDatabase.add_model_hardware_performance, fallbackProjection,
    TokenServiceCalculator.calculate_lifecycle_revenue,
    TokenServiceCalculator.calculate_single_service_metrics,
    ModelPricingCalc.calculate_request_revenue,
    TokenServiceCalculator.get_effective_concurrency, dbCapacityCallWith3Args,
    slaConfigsGet, TokenServiceCalculator.calculate_hardware_cost, pyDiv, pyInt,
    String.reduceEq, reduceIte]
  norm_num

/-- C4 counterexample: two calculators identical except that one database
lacks the qwen2-7b benchmark row (the derivation would yield NotFound)
while the other could derive 199 concurrent requests; both return the
field-for-field identical projection built on the static fallback 160, so
no field of the returned projection records that the fallback path was
used and a caller cannot distinguish a derived result from an approximated
one. -/
theorem fallback_not_recorded_counterexample :
    ((fallbackCalc emptyDb).calculate_lifecycle_revenue).map Prod.fst
        = ((fallbackCalc qwenDb).calculate_lifecycle_revenue).map Prod.fst ∧
    ((fallbackCalc emptyDb).calculate_lifecycle_revenue).map Prod.fst
        = .ok fallbackProjection ∧
    fallbackProjection.concurrent_capacity = 160 ∧
    emptyDb.calcNewCapacity "RTX4090x4" "qwen2-7b" "standard" 1000 500 = .ok none ∧
    (qwenDb.calcNewCapacity "RTX4090x4" "qwen2-7b" "standard" 1000 500).map
        (Option.map CapacityResult.max_concurrent_requests) = .ok (some 199) := by
  refine ⟨?_, ?_, rfl, rfl, ?_⟩
  · rw [lr_empty, lr_qwen]
    rfl
  · rw [lr_empty]
    rfl
  · simp only [qwenDb, emptyDb, standardSla, qwenPerf,
      TokenServiceDatabase.add_sla_level, TokenServiceDatabase.add_model_hardware_performance,
      TokenServiceDatabase.calcNewCapacity, effectiveConcurrent, adjustedConcurrent,
      tokenRatio, pyDiv, pyInt]
    norm_num
    rfl

/-- Whenever `calculate_lifecycle_revenue` produces a projection, its
`concurrent_capacity` is the static fallback value and the database state
is unchanged. -/
theorem lifecycle_ok_inversion
    (c : TokenServiceCalculator) (mp : ModelPricingCalc) (hw : HardwarePerformance)
    (sp : ServiceParameters)
    (hmp : c.model_pricing = some mp) (hhw : c.hardware = some hw)
    (hsp : c.service_params = some sp)
    (p : LifecycleRevenue) (db1 : TokenServiceDatabase)
    (hcall : c.calculate_lifecycle_revenue = .ok (p, db1)) :
    p.concurrent_capacity
        = pyInt ((hw.max_concurrent_requests : ℚ) * slaConfigsGet sp.sla_level) ∧
    db1 = c.db := by
  unfold TokenServiceCalculator.calculate_lifecycle_revenue at hcall
  cases hspf : c.service_profile with
  | none => rw [hspf] at hcall; exact absurd hcall (by simp)
  | some spf =>
    simp only [hspf, hsp] at hcall
    cases hsm : c.calculate_single_service_metrics with
    | error e => rw [hsm] at hcall; exact absurd hcall (by simp)
    | ok sm =>
      rw [hsm, gec_static c mp hw sp hmp hhw hsp] at hcall
      cases hdiv : pyDiv ((pyInt ((hw.max_concurrent_requests : ℚ)
          * slaConfigsGet sp.sla_level) : ℤ) : ℚ) spf.response_time with
      | error e => rw [hdiv] at hcall; exact absurd hcall (by simp)
      | ok tq =>
        rw [hdiv] at hcall
        cases hcost : c.calculate_hardware_cost with
        | error e => rw [hcost] at hcall; exact absurd hcall (by simp)
        | ok hc =>
          rw [hcost] at hcall
          simp only [Except.ok.injEq, Prod.mk.injEq] at hcall
          obtain ⟨h1, h2⟩ := hcall
          subst h2
          exact ⟨by rw [← h1], rfl⟩

/-- C4 amended: on a fully configured calculator the revenue model always
substitutes the static service-level ratio table applied to
`hardware.max_concurrent_requests` (the NotFound case included, since the
derivation call always fails before reaching the database), and the
returned lifecycle projection does not record that this fallback path was
used: its `concurrent_capacity` is the static fallback value and the
database state passes through unchanged. -/
theorem lifecycle_fallback_not_recorded
    (c : TokenServiceCalculator) (mp : ModelPricingCalc) (hw : HardwarePerformance)
    (sp : ServiceParameters)
    (hmp : c.model_pricing = some mp) (hhw : c.hardware = some hw)
    (hsp : c.service_params = some sp) :
    (c.calculate_lifecycle_revenue).map (fun x => x.1.concurrent_capacity)
        = (c.calculate_lifecycle_revenue).map
            (fun _ => pyInt ((hw.max_concurrent_requests : ℚ) * slaConfigsGet sp.sla_level)) ∧
    (c.calculate_lifecycle_revenue).map Prod.snd
        = (c.calculate_lifecycle_revenue).map (fun _ => c.db) := by
  cases hres : c.calculate_lifecycle_revenue with
  | error e => exact ⟨rfl, rfl⟩
  | ok pr =>
    obtain ⟨p, db1⟩ := pr
    obtain ⟨h1, h2⟩ := lifecycle_ok_inversion c mp hw sp hmp hhw hsp p db1 hres
    subst h2
    exact ⟨by simp [Except.map, h1], rfl⟩

/-- Witness for C4's amended theorem: the sample calculator over the empty
database. -/
theorem lifecycle_fallback_not_recorded_witness :
    ((fallbackCalc emptyDb).calculate_lifecycle_revenue).map
        (fun x => x.1.concurrent_capacity)
      = ((fallbackCalc emptyDb).calculate_lifecycle_revenue).map
          (fun _ => pyInt ((sampleHardware.max_concurrent_requests : ℚ)
            * slaConfigsGet sampleParams.sla_level)) :=
  (lifecycle_fallback_not_recorded (fallbackCalc emptyDb) samplePricing
    sampleHardware sampleParams rfl rfl rfl).1

/-- C10: `calculate_lifecycle_revenue` raises ZeroDivisionError when the
service profile's response time is zero (the division at line 261 is
unguarded), while the calculator's own `calculate_hardware_capacity`
guards its analogous `1 / response_time` division and yields a zero
`total_qps`, and `calculate_single_service_metrics` guards its
`1 / processing_time` division and yields a zero `qps_per_instance`. -/
theorem lifecycle_zero_response_time_raises :
    (∀ (c : TokenServiceCalculator) (mp : ModelPricingCalc) (spf : ServiceProfile)
       (hw : HardwarePerformance) (sp : ServiceParameters),
       c.model_pricing = some mp → c.service_profile = some spf →
       c.hardware = some hw → c.service_params = some sp →
       spf.response_time = 0 → hw.prefill_tps ≠ 0 → hw.decode_tps ≠ 0 →
       c.calculate_lifecycle_revenue = .error .zeroDivisionError) ∧
    (∀ (c : TokenServiceCalculator) (spf : ServiceProfile) (hw : HardwarePerformance),
       c.service_profile = some spf → c.hardware = some hw →
       spf.response_time = 0 → spf.input_tokens ≠ 0 →
       (c.calculate_hardware_capacity).map HardwareCapacityMetrics.total_qps = .ok 0) ∧
    (∀ (c : TokenServiceCalculator) (mp : ModelPricingCalc) (spf : ServiceProfile)
       (hw : HardwarePerformance) (sp : ServiceParameters),
       c.model_pricing = some mp → c.service_profile = some spf →
       c.hardware = some hw → c.service_params = some sp →
       spf.input_tokens = 0 → spf.output_tokens = 0 →
       hw.prefill_tps ≠ 0 → hw.decode_tps ≠ 0 →
       (c.calculate_single_service_metrics).map SingleServiceMetrics.qps_per_instance
         = .ok 0) := by
  refine ⟨?_, ?_, ?_⟩
  · intro c mp spf hw sp hmp hspf hhw hsp hrt hpre hdec
    have hsm : c.calculate_single_service_metrics
        = .ok { revenue_per_request := mp.calculate_request_revenue
                  spf.input_tokens spf.output_tokens
                processing_time := (spf.input_tokens : ℚ) / hw.prefill_tps
                  + (spf.output_tokens : ℚ) / hw.decode_tps
                qps_per_instance := if 0 < (spf.input_tokens : ℚ) / hw.prefill_tps
                    + (spf.output_tokens : ℚ) / hw.decode_tps then
                  1 / ((spf.input_tokens : ℚ) / hw.prefill_tps
                    + (spf.output_tokens : ℚ) / hw.decode_tps) else 0
                daily_requests_per_instance := (if 0 < (spf.input_tokens : ℚ) / hw.prefill_tps
                    + (spf.output_tokens : ℚ) / hw.decode_tps then
                  1 / ((spf.input_tokens : ℚ) / hw.prefill_tps
                    + (spf.output_tokens : ℚ) / hw.decode_tps) else 0)
                  * 3600 * 24 * sp.uptime_percentage
                daily_revenue_per_instance := (if 0 < (spf.input_tokens : ℚ) / hw.prefill_tps
                    + (spf.output_tokens : ℚ) / hw.decode_tps then
                  1 / ((spf.input_tokens : ℚ) / hw.prefill_tps
                    + (spf.output_tokens : ℚ) / hw.decode_tps) else 0)
                  * 3600 * 24 * sp.uptime_percentage
                  * mp.calculate_request_revenue spf.input_tokens spf.output_tokens } := by
      unfold TokenServiceCalculator.calculate_single_service_metrics
      simp only [hmp, hspf, hhw, hsp, pyDiv, if_neg hpre, if_neg hdec]
    unfold TokenServiceCalculator.calculate_lifecycle_revenue
    simp only [hspf, hsp, hsm]
    simp [pyDiv, hrt]
  · intro c spf hw hspf hhw hrt hin
    have hinq : (spf.input_tokens : ℚ) ≠ 0 := by exact_mod_cast hin
    unfold TokenServiceCalculator.calculate_hardware_capacity
    simp only [hspf, hhw, pyDiv, if_neg hinq, hrt]
    simp [Except.map]
  · intro c mp spf hw sp hmp hspf hhw hsp hin hout hpre hdec
    unfold TokenServiceCalculator.calculate_single_service_metrics
    simp only [hmp, hspf, hhw, hsp, pyDiv, if_neg hpre, if_neg hdec, hin, hout]
    simp [Except.map]

/-- Witness for C10: the sample calculator with a zero response time raises
ZeroDivisionError. -/
theorem lifecycle_zero_response_time_raises_witness :
    (zeroRespCalc emptyDb).calculate_lifecycle_revenue = .error .zeroDivisionError :=
  lifecycle_zero_response_time_raises.1 (zeroRespCalc emptyDb) samplePricing
    zeroRespProfile sampleHardware sampleParams rfl rfl rfl rfl rfl
    (by norm_num [sampleHardware]) (by norm_num [sampleHardware])

/-- C9: when a current pricing row exists for the key, `add_model_pricing`
appends that previously stored row (with the insertion timestamp) to the
history table and overwrites the current row; when no row exists, the
history is untouched; and no core operation ever removes or rewrites
history rows — every operation extends the history list at the end or
leaves it unchanged. -/
theorem pricing_history_append_only :
    (∀ (db : TokenServiceDatabase) (p : ModelPricing) (now : ℕ) (old : ModelPricing),
      db.model_pricing p.model_key = some old →
      (db.add_model_pricing p now).model_pricing_history
          = db.model_pricing_history ++ [historyRowOf old now] ∧
      (db.add_model_pricing p now).model_pricing p.model_key
          = some { p with last_updated := now }) ∧
    (∀ (db : TokenServiceDatabase) (p : ModelPricing) (now : ℕ),
      db.model_pricing p.model_key = none →
      (db.add_model_pricing p now).model_pricing_history = db.model_pricing_history) ∧
    (∀ (db : TokenServiceDatabase) (p : ModelPricing) (now : ℕ),
      db.model_pricing_history <+: (db.add_model_pricing p now).model_pricing_history) ∧
    (∀ (db : TokenServiceDatabase) (hw : HardwareConfig),
      (db.add_hardware_config hw).model_pricing_history = db.model_pricing_history) ∧
    (∀ (db : TokenServiceDatabase) (s : SLALevel),
      (db.add_sla_level s).model_pricing_history = db.model_pricing_history) ∧
    (∀ (db : TokenServiceDatabase) (perf : ModelHardwarePerformance),
      (db.add_model_hardware_performance perf).model_pricing_history
          = db.model_pricing_history) ∧
    (∀ (db db2 : TokenServiceDatabase) (h m s : String) (i o : ℤ)
       (r : Option CapacityResult),
      db.calculate_hardware_capacity h m s i o = .ok (r, db2) →
      db2.model_pricing_history = db.model_pricing_history) := by
  refine ⟨?_, ?_, ?_, fun _ _ => rfl, fun _ _ => rfl, fun _ _ => rfl, ?_⟩
  · intro db p now old hold
    unfold TokenServiceDatabase.add_model_pricing
    simp only [hold]
    simp
  · intro db p now hnone
    unfold TokenServiceDatabase.add_model_pricing
    simp only [hnone]
  · intro db p now
    unfold TokenServiceDatabase.add_model_pricing
    cases hold : db.model_pricing p.model_key with
    | some old => simp only [hold]; exact List.prefix_append _ _
    | none => simp only [hold]; exact List.prefix_rfl
  · intro db db2 h m s i o r hcall
    unfold TokenServiceDatabase.calculate_hardware_capacity at hcall
    cases hcache : db.hardware_model_sla_capacity ⟨h, m, s, i, o⟩ with
    | some cached =>
      rw [hcache] at hcall
      simp only [Except.ok.injEq, Prod.mk.injEq] at hcall
      rw [← hcall.2]
    | none =>
      rw [hcache] at hcall
      cases hcalc : db.calcNewCapacity h m s i o with
      | error e => rw [hcalc] at hcall; exact absurd hcall (by simp)
      | ok copt =>
        cases copt with
        | none =>
          rw [hcalc] at hcall
          simp only [Except.ok.injEq, Prod.mk.injEq] at hcall
          rw [← hcall.2]
        | some capacity =>
          rw [hcalc] at hcall
          simp only [Except.ok.injEq, Prod.mk.injEq] at hcall
          rw [← hcall.2]
          rfl

/-- Witness for C9: superseding the stored qwen2-7b price appends exactly
the old row to the history. -/
theorem pricing_history_append_only_witness :
    (pricingDb.add_model_pricing samplePricingRow2 1).model_pricing_history
      = pricingDb.model_pricing_history ++ [historyRowOf samplePricingRow 1] :=
  (pricing_history_append_only.1 pricingDb samplePricingRow2 1 samplePricingRow
    (by simp [pricingDb, emptyDb, TokenServiceDatabase.add_model_pricing,
      samplePricingRow, samplePricingRow2])).1
